import Mathlib

/-!
Formal model of the pantry HTTP service (src/index.js): a small CRUD
service over one database table.  JavaScript runtime values are embedded
as an inductive type, the validators and handlers are translated
function-by-function from the source, the database is modelled as a list
of rows together with an optional injected query error (the database is
an external collaborator reached through the query/parameter/rows
contract), and the Node `ServerResponse` is modelled as a write log in
which only the first completed write reaches the client.
-/

set_option autoImplicit false

namespace Pantry

/-- JavaScript runtime values, as far as this program manipulates them:
request-body fields and path parameters.  Finite doubles are modelled as
rationals (the program only compares them, never does arithmetic on
them); NaN is a separate constructor since it is falsy yet of number
type. -/
inductive JSValue where
  | undefined
  | null
  | bool (b : Bool)
  | num (q : ℚ)
  | nan
  | str (s : String)
  deriving DecidableEq

/-- JavaScript truthiness: undefined, null, false, 0, NaN and the empty
string are falsy; everything else this program meets is truthy. -/
def truthy : JSValue → Bool
  | .undefined => false
  | .null => false
  | .bool b => b
  | .num q => decide (q ≠ 0)
  | .nan => false
  | .str s => decide (s ≠ "")

/-- Item as submitted by the client on create: the three validated body
fields (source: `const item = {name, quantity, expiration};`). -/
structure ItemIn where
  name : String
  quantity : ℚ
  expiration : String
  deriving DecidableEq

/-- Item as returned by insert/update paths: the submitted fields plus
the id (`item.id = result.rows[0].id` on insert; the update handler
builds `{name, quantity, expiration, id}`). -/
structure ItemFull where
  id : Int
  name : String
  quantity : ℚ
  expiration : String
  deriving DecidableEq

/-- Calendar date as stored in the database DATE column and handed back
by the driver as a Date object. -/
structure PDate where
  year : Nat
  month : Nat
  day : Nat
  deriving DecidableEq

/-- One row of the PANTRY table: ID, NAME, QUANTITY, EXPIRATION. -/
structure Row where
  id : Int
  name : String
  quantity : ℚ
  expiration : PDate
  deriving DecidableEq

/-- Item as mapped from a selected row after `dateObjectToString` has
replaced the Date object with a string. -/
structure ItemOut where
  id : Int
  name : String
  quantity : ℚ
  expiration : String
  deriving DecidableEq

/-- JSON body of a successful response: `response.json` is called with
the created/updated item, with the array of selected items, or (on the
dead success path of delete/update) with `result.item`, which is
undefined there. -/
inductive JsonBody where
  | item (i : ItemFull)
  | items (l : List ItemOut)
  | jsUndefined
  deriving DecidableEq

/-- One write the program performs on the response object.  `endW`
models setting `statusCode` and `statusMessage` and then calling
`end()` (the shape used by `userError` and `internalError`); `jsonW`
models `response.json(body)`, which sends status 200 with a JSON
body. -/
inductive Write where
  | endW (status : Nat) (message : String)
  | jsonW (body : JsonBody)
  deriving DecidableEq

/-- HTTP status carried by a write; `response.json` leaves the default
status 200. -/
def Write.status : Write → Nat
  | .endW s _ => s
  | .jsonW _ => 200

/-- Model of the Node `ServerResponse` as seen across a whole request:
`attempts` records every write the program performs, in order, while
`wire` is what the client actually receives.  Node sends the headers and
finishes the response on the first `end()`/`json()`; a later write on a
finished response transmits nothing (status assignments after the
headers are sent have no effect), so only the first attempt reaches the
wire. -/
structure Res where
  wire : List Write
  attempts : List Write
  deriving DecidableEq

/-- The untouched response object. -/
def Res.empty : Res := ⟨[], []⟩

/-- Perform one write: it is always recorded as an attempt, but reaches
the client only when no earlier write has finished the response. -/
def Res.write (r : Res) (w : Write) : Res :=
  ⟨if r.wire.isEmpty then [w] else r.wire, r.attempts ++ [w]⟩

/-- Perform a write when one was requested. -/
def Res.writeOpt (r : Res) : Option Write → Res
  | none => r
  | some w => r.write w

/-- Source `userError`: status 400, the reason as status message, end. -/
def userErrorW (msg : String) : Write := .endW 400 msg

/-- Source `internalError`: status 500, generic message, end; the error
detail goes to the server log only. -/
def internalErrorW : Write := .endW 500 "Internal Error."

def userError (r : Res) (msg : String) : Res := r.write (userErrorW msg)

def internalError (r : Res) : Res := r.write internalErrorW

/-- Outcome of running a piece of JavaScript that may throw an uncaught
exception (inside the asynchronous query callbacks nothing catches a
throw, so the request never gets a response). -/
inductive JsOutcome (α : Type) where
  | ok (a : α)
  | thrown (msg : String)
  deriving DecidableEq

/-- Message of the TypeError raised by dereferencing `result.rows` when
`db.query` reported an error and `result` is therefore undefined. -/
def tyErrMsg : String := "TypeError: Cannot read properties of undefined"

/-! ### Validation layer -/

/-- Result of one validator: the JavaScript return value (the validated
value, or undefined modelled as `none`) together with the `userError`
write the validator performed when it rejected the field. -/
structure VOutS where
  value : Option String
  wrote : Option Write
  deriving DecidableEq

structure VOutQ where
  value : Option ℚ
  wrote : Option Write
  deriving DecidableEq

structure VOutI where
  value : Option Int
  wrote : Option Write
  deriving DecidableEq

/-- Source `getValidateName`: reject a falsy name, then a non-string or
empty one, else return it. -/
def getValidateName (name : JSValue) : VOutS :=
  if truthy name = false then
    ⟨none, some (userErrorW "name was undefined.")⟩
  else
    match name with
    | .str s =>
        if s.length = 0 then
          ⟨none, some (userErrorW "name was not a string or was empty.")⟩
        else ⟨some s, none⟩
    | _ => ⟨none, some (userErrorW "name was not a string or was empty.")⟩

/-- Source `getValidatedQuantity`: reject a falsy quantity (undefined,
0 or NaN), then one that is not of number type or is less than 1, else
return it.  A NaN quantity is already rejected by the truthiness check,
so the number branch only ever sees finite values. -/
def getValidatedQuantity (quantity : JSValue) : VOutQ :=
  if truthy quantity = false then
    ⟨none, some (userErrorW "quantity was undefined.")⟩
  else
    match quantity with
    | .num q =>
        if q < 1 then
          ⟨none, some (userErrorW "quantity was not a number or was less than 1.")⟩
        else ⟨some q, none⟩
    | _ => ⟨none, some (userErrorW "quantity was not a number or was less than 1.")⟩

/-- Consume exactly `n` characters matching the regex class d. -/
def consumeDigits : Nat → List Char → Option (List Char)
  | 0, cs => some cs
  | _ + 1, [] => none
  | n + 1, c :: cs => if c.isDigit then consumeDigits n cs else none

/-- Match the pattern d d d d - d d - d d starting at this position. -/
def matchDateAt (cs : List Char) : Bool :=
  match consumeDigits 4 cs with
  | some ('-' :: rest) =>
      match consumeDigits 2 rest with
      | some ('-' :: rest2) => (consumeDigits 2 rest2).isSome
      | _ => false
  | _ => false

/-- Source `EXPIRATION_REGEX.test(s)`: the regex is unanchored, so the
test succeeds when the date pattern occurs anywhere in the string. -/
def expirationRegexTest (s : String) : Bool :=
  s.data.tails.any matchDateAt

/-- Source `getValidatedExpiration`: reject a falsy expiration, then one
that is not a string or fails the regex test, else return it. -/
def getValidatedExpiration (expiration : JSValue) : VOutS :=
  if truthy expiration = false then
    ⟨none, some (userErrorW "expiration was undefined.")⟩
  else
    match expiration with
    | .str s =>
        if expirationRegexTest s then ⟨some s, none⟩
        else
          ⟨none, some (userErrorW
            "expiration date was not a string or it was not of the format YYYY-MM-DD.")⟩
    | _ =>
        ⟨none, some (userErrorW
          "expiration date was not a string or it was not of the format YYYY-MM-DD.")⟩

/-- Decimal value of a digit list, most significant first. -/
def digitsToNat (cs : List Char) : Nat :=
  cs.foldl (fun acc c => 10 * acc + (c.toNat - '0'.toNat)) 0

def isHexDigitChar (c : Char) : Bool :=
  c.isDigit || ('a' ≤ c && c ≤ 'f') || ('A' ≤ c && c ≤ 'F')

def hexDigitVal (c : Char) : Nat :=
  if c.isDigit then c.toNat - '0'.toNat
  else if 'a' ≤ c && c ≤ 'f' then c.toNat - 'a'.toNat + 10
  else c.toNat - 'A'.toNat + 10

def hexDigitsToNat (cs : List Char) : Nat :=
  cs.foldl (fun acc c => 16 * acc + hexDigitVal c) 0

def isJsWhitespace (c : Char) : Bool :=
  c = ' ' || c = '\t' || c = '\n' || c = '\r'

/-- JavaScript `parseInt` with no radix argument: skip leading
whitespace, read an optional sign, then either a 0x/0X-prefixed run of
hex digits or a run of decimal digits; anything after the consumed run
is ignored, and `none` models the NaN result when no digit was read. -/
def parseIntJS (s : String) : Option Int :=
  let cs := s.data.dropWhile isJsWhitespace
  let signAndRest : Int × List Char :=
    match cs with
    | '-' :: r => (-1, r)
    | '+' :: r => (1, r)
    | r => (1, r)
  match signAndRest.2 with
  | '0' :: 'x' :: r =>
      let ds := r.takeWhile isHexDigitChar
      if ds.isEmpty then none else some (signAndRest.1 * hexDigitsToNat ds)
  | '0' :: 'X' :: r =>
      let ds := r.takeWhile isHexDigitChar
      if ds.isEmpty then none else some (signAndRest.1 * hexDigitsToNat ds)
  | r =>
      let ds := r.takeWhile Char.isDigit
      if ds.isEmpty then none else some (signAndRest.1 * digitsToNat ds)

/-- Source `getValidatedId`: the Express router hands the `:id` path
segment over as a string, on which `!id` is true exactly for the empty
string; then `parseInt` is applied and NaN rejected. -/
def getValidatedId (pid : String) : VOutI :=
  if pid = "" then
    ⟨none, some (userErrorW "id was undefined.")⟩
  else
    match parseIntJS pid with
    | none => ⟨none, some (userErrorW "id was not a number.")⟩
    | some i => ⟨some i, none⟩

/-! ### Data access layer -/

/-- External database as the program sees it: the PANTRY table, the id
the sequence will assign to the next inserted row, and an optional
injected failure — when `fail` is set, every `db.query` call reports
that error to its callback (with an undefined result), which is the
query/parameter/rows contract of the driver. -/
structure DbEnv where
  table : List Row
  nextId : Int
  fail : Option String
  deriving DecidableEq

/-- The single row returned by `SELECT COUNT(*)`: the driver delivers
the bigint count as a decimal string inside a row object. -/
structure CountRow where
  count : String
  deriving DecidableEq

/-- Source `result.rows[0] === 1` inside `itemExists`: strict equality
between the row object and the number 1.  Values of different runtime
types are never strictly equal in JavaScript and a row is an object, so
the comparison is false for every row, whatever the count says (the
intended check was presumably on `result.rows[0].count`). -/
def rowStrictEqOne (_row : CountRow) : Bool := false

/-- SQL comparison `ID = $1` for one row: a number parameter matches a
row with that id; any non-number JavaScript value (in this program,
undefined) is bound as NULL, and `ID = NULL` is never true. -/
def idMatchesParam (rid : Int) (p : JSValue) : Bool :=
  match p with
  | .num x => decide ((rid : ℚ) = x)
  | _ => false

/-- Row produced by `SELECT COUNT(*) FROM PANTRY WHERE ID = $1`. -/
def countRowFor (table : List Row) (p : JSValue) : CountRow :=
  ⟨toString (table.countP (fun r => idMatchesParam r.id p))⟩

/-- Body of the `db.query` callback inside `itemExists`: on a query
error `result` is undefined and `result.rows[0]` throws; otherwise the
callback receives `result.rows[0] === 1` (the error argument is never
inspected). -/
def itemExistsCb (dbres : Except String CountRow) : JsOutcome Bool :=
  match dbres with
  | .error _ => .thrown tyErrMsg
  | .ok row => .ok (rowStrictEqOne row)

/-- Source `itemExists` run against the database: issue the COUNT query
with the given `item.id` parameter and run its callback. -/
def itemExistsQ (p : JSValue) (env : DbEnv) : JsOutcome Bool :=
  match env.fail with
  | some e => itemExistsCb (.error e)
  | none => itemExistsCb (.ok (countRowFor env.table p))

/-- Body of the `db.query` callback inside `insertItem`: the code sets
`item.id = result.rows[0].id` before looking at `err`, so on a query
error (undefined `result`) it throws instead of reaching
`callback(err, item)`; on success the item, extended with the assigned
id, is passed on with a null error. -/
def insertItemCb (item : ItemIn) (dbres : Except String Int) :
    JsOutcome (Option String × ItemFull) :=
  match dbres with
  | .error _ => .thrown tyErrMsg
  | .ok newId => .ok (none, ⟨newId, item.name, item.quantity, item.expiration⟩)

/-- Date value Postgres stores for the expiration text parameter: the
leading YYYY-MM-DD reading.  No claim inspects a stored date that came
through this path; text the database would refuse is mapped to a fixed
date here. -/
def pgDate (s : String) : PDate :=
  match s.data with
  | y1 :: y2 :: y3 :: y4 :: '-' :: m1 :: m2 :: '-' :: d1 :: d2 :: _ =>
      if y1.isDigit && y2.isDigit && y3.isDigit && y4.isDigit &&
          m1.isDigit && m2.isDigit && d1.isDigit && d2.isDigit then
        ⟨digitsToNat [y1, y2, y3, y4], digitsToNat [m1, m2], digitsToNat [d1, d2]⟩
      else ⟨1970, 1, 1⟩
  | _ => ⟨1970, 1, 1⟩

/-- Source `insertItem` run against the database: `INSERT ... RETURNING
ID` assigns the next sequence value and appends the row; on an injected
failure the callback body throws and the table is untouched. -/
def insertItem (item : ItemIn) (env : DbEnv) :
    JsOutcome (Option String × ItemFull) × DbEnv :=
  match env.fail with
  | some e => (insertItemCb item (.error e), env)
  | none =>
      (insertItemCb item (.ok env.nextId),
       ⟨env.table ++ [⟨env.nextId, item.name, item.quantity, pgDate item.expiration⟩],
        env.nextId + 1, none⟩)

/-- Source `Date.prototype.toLocaleDateString` with no arguments under
the default en-US locale of the runtime: month/day/year without zero
padding. -/
def toLocaleDateString (d : PDate) : String :=
  toString d.month ++ "/" ++ toString d.day ++ "/" ++ toString d.year

/-- Source `dateObjectToString`: replace the Date object in a selected
row by its locale-formatted string. -/
def dateObjectToString (r : Row) : ItemOut :=
  ⟨r.id, r.name, r.quantity, toLocaleDateString r.expiration⟩

/-- Body of the `db.query` callback inside `getItems`: the code maps
`result.rows` before looking at `err`, so on a query error (undefined
`result`) it throws instead of reaching the callback. -/
def getItemsCb (dbres : Except String (List Row)) :
    JsOutcome (Option String × List ItemOut) :=
  match dbres with
  | .error _ => .thrown tyErrMsg
  | .ok rows => .ok (none, rows.map dateObjectToString)

/-- Source `getItems` run against the database. -/
def getItems (env : DbEnv) : JsOutcome (Option String × List ItemOut) :=
  match env.fail with
  | some e => getItemsCb (.error e)
  | none => getItemsCb (.ok env.table)

/-- Value `updateItem` passes to its callback: either the not-found
record `{present: false, item: undefined}` or, after a successful
UPDATE, the bare item object. -/
inductive UpdateResult where
  | notPresent
  | updated (item : ItemFull)
  deriving DecidableEq

/-- Property access `result.present` in the update handler: false on the
not-found record; undefined on the bare item object, which has no
`present` field — so it is falsy in both cases. -/
def UpdateResult.presentProp : UpdateResult → JSValue
  | .notPresent => .bool false
  | .updated _ => .undefined

/-- Property access `result.item` as passed to `response.json` in the
update handler: undefined on the not-found record, and also undefined on
the bare item object, which has no `item` field. -/
def UpdateResult.itemProp : UpdateResult → JsonBody
  | .notPresent => .jsUndefined
  | .updated _ => .jsUndefined

/-- Row after `UPDATE PANTRY SET NAME, EXPIRATION, QUANTITY WHERE ID`. -/
def updateRow (item : ItemFull) (r : Row) : Row :=
  if r.id = item.id then
    ⟨r.id, item.name, item.quantity, pgDate item.expiration⟩
  else r

/-- Source `updateItem`: check existence first; when absent, report
`{present: false}` without touching the table; when present (which the
broken existence check never reports), run the UPDATE and pass the item
on. -/
def updateItem (item : ItemFull) (env : DbEnv) :
    JsOutcome (Option String × UpdateResult) × DbEnv :=
  match itemExistsQ (.num (item.id : ℚ)) env with
  | .thrown m => (.thrown m, env)
  | .ok false => (.ok (none, .notPresent), env)
  | .ok true =>
      match env.fail with
      | some e => (.ok (some e, .updated item), env)
      | none =>
          (.ok (none, .updated item),
           ⟨env.table.map (updateRow item), env.nextId, none⟩)

/-- Value `deleteItem` passes to its callback: either the not-found
record or, after a successful DELETE, the first argument it was given —
which the delete handler supplies as the bare id number, not an item
object. -/
inductive DeleteResult where
  | notPresent
  | deleted (idNum : Int)
  deriving DecidableEq

/-- Property access `result.present` in the delete handler: false on the
not-found record; undefined on a number, which has no `present`
field. -/
def DeleteResult.presentProp : DeleteResult → JSValue
  | .notPresent => .bool false
  | .deleted _ => .undefined

/-- Property access `result.item` as passed to `response.json` in the
delete handler: undefined in both cases (a number has no `item`
field). -/
def DeleteResult.itemProp : DeleteResult → JsonBody
  | .notPresent => .jsUndefined
  | .deleted _ => .jsUndefined

/-- Source `deleteItem` as called by the DELETE handler: the handler
passes the bare numeric id where an item object is expected, so
`item.id` — the `id` property of a number — is undefined both in the
existence-check parameter and in the DELETE parameters. -/
def deleteItem (idNum : Int) (env : DbEnv) :
    JsOutcome (Option String × DeleteResult) × DbEnv :=
  match itemExistsQ .undefined env with
  | .thrown m => (.thrown m, env)
  | .ok false => (.ok (none, .notPresent), env)
  | .ok true =>
      match env.fail with
      | some e => (.ok (some e, .deleted idNum), env)
      | none =>
          (.ok (none, .deleted idNum),
           ⟨env.table.filter (fun r => !idMatchesParam r.id .undefined),
            env.nextId, none⟩)

/-! ### Request handlers -/

/-- Request body as the JSON body parser delivers it: the three raw
fields the validators inspect. -/
structure Payload where
  name : JSValue
  quantity : JSValue
  expiration : JSValue
  deriving DecidableEq

/-- Everything observable about one handler run: the response object,
the database afterwards, how many data-access operations were invoked,
and the message of an uncaught exception when a query callback threw (in
which case the request never receives a response). -/
structure RunResult where
  res : Res
  db : DbEnv
  dalCalls : Nat
  crashed : Option String
  deriving DecidableEq

/-- Message of the not-found `userError` in the update and delete
handlers. -/
def notFoundMsg (i : Int) : String :=
  "Item with id " ++ toString i ++ " not found."

/-- Handler for GET /: fetch all items; on a (never-delivered) explicit
error answer 500, else answer the JSON array. -/
def runList (env : DbEnv) : RunResult :=
  match getItems env with
  | .thrown m => ⟨Res.empty, env, 1, some m⟩
  | .ok (some _, _) => ⟨internalError Res.empty, env, 1, none⟩
  | .ok (none, items) => ⟨Res.empty.write (.jsonW (.items items)), env, 1, none⟩

/-- Handler for POST /: run all three validators unconditionally, stop
when any result is falsy (each failed validator has already written its
error), else insert and answer the created item. -/
def runCreate (body : Payload) (env : DbEnv) : RunResult :=
  let vn := getValidateName body.name
  let vq := getValidatedQuantity body.quantity
  let ve := getValidatedExpiration body.expiration
  let res := ((Res.empty.writeOpt vn.wrote).writeOpt vq.wrote).writeOpt ve.wrote
  match vn.value, vq.value, ve.value with
  | some n, some q, some e =>
      if n ≠ "" ∧ q ≠ 0 ∧ e ≠ "" then
        match insertItem ⟨n, q, e⟩ env with
        | (.thrown m, env2) => ⟨res, env2, 1, some m⟩
        | (.ok (some _, _), env2) => ⟨internalError res, env2, 1, none⟩
        | (.ok (none, item), env2) =>
            ⟨res.write (.jsonW (.item item)), env2, 1, none⟩
      else ⟨res, env, 0, none⟩
  | _, _, _ => ⟨res, env, 0, none⟩

/-- Handler for DELETE /:id: validate the id, stop on a falsy result
(which an id of 0 also is), else call `deleteItem` and translate its
callback values. -/
def runDelete (pid : String) (env : DbEnv) : RunResult :=
  let vid := getValidatedId pid
  let res := Res.empty.writeOpt vid.wrote
  match vid.value with
  | some i =>
      if i ≠ 0 then
        match deleteItem i env with
        | (.thrown m, env2) => ⟨res, env2, 1, some m⟩
        | (.ok (some _, _), env2) => ⟨internalError res, env2, 1, none⟩
        | (.ok (none, result), env2) =>
            if truthy result.presentProp then
              ⟨res.write (.jsonW result.itemProp), env2, 1, none⟩
            else ⟨userError res (notFoundMsg i), env2, 1, none⟩
      else ⟨res, env, 0, none⟩
  | none => ⟨res, env, 0, none⟩

/-- Handler for POST /:id: run all four validators unconditionally, stop
when any result is falsy (an id of 0 included), else call `updateItem`
and translate its callback values. -/
def runUpdate (body : Payload) (pid : String) (env : DbEnv) : RunResult :=
  let vn := getValidateName body.name
  let vq := getValidatedQuantity body.quantity
  let ve := getValidatedExpiration body.expiration
  let vid := getValidatedId pid
  let res :=
    (((Res.empty.writeOpt vn.wrote).writeOpt vq.wrote).writeOpt ve.wrote).writeOpt vid.wrote
  match vn.value, vq.value, ve.value, vid.value with
  | some n, some q, some e, some i =>
      if n ≠ "" ∧ q ≠ 0 ∧ e ≠ "" ∧ i ≠ 0 then
        match updateItem ⟨i, n, q, e⟩ env with
        | (.thrown m, env2) => ⟨res, env2, 1, some m⟩
        | (.ok (some _, _), env2) => ⟨internalError res, env2, 1, none⟩
        | (.ok (none, result), env2) =>
            if truthy result.presentProp then
              ⟨res.write (.jsonW result.itemProp), env2, 1, none⟩
            else ⟨userError res (notFoundMsg i), env2, 1, none⟩
      else ⟨res, env, 0, none⟩
  | _, _, _, _ => ⟨res, env, 0, none⟩

/-- The rational 3/2, i.e. the JavaScript number 1.5. -/
def threeHalves : ℚ := ⟨3, 2, by decide, by decide⟩

/-- First-write-wins shape of a response: what reaches the client is
exactly the first attempted write. -/
def Res.firstWins (r : Res) : Prop := r.wire = r.attempts.take 1

/-! ### Helper lemmas -/

lemma threeHalves_eq : threeHalves = 3 / 2 := by
  rw [show threeHalves = Rat.mk' 3 2 (by decide) (by decide) from rfl]
  rw [Rat.mk'_eq_divInt, Rat.divInt_eq_div]
  norm_num

lemma length_ne_zero_of_ne_empty {s : String} (h : s ≠ "") : s.length ≠ 0 := by
  intro hl
  apply h
  cases s with
  | mk data =>
    cases data with
    | nil => rfl
    | cons a t => simp [String.length] at hl

lemma getValidateName_ok {n : String} (h : n ≠ "") :
    getValidateName (.str n) = ⟨some n, none⟩ := by
  unfold getValidateName
  simp [truthy, h, length_ne_zero_of_ne_empty h]

lemma getValidatedQuantity_ok {q : ℚ} (h : 1 ≤ q) :
    getValidatedQuantity (.num q) = ⟨some q, none⟩ := by
  have h0 : q ≠ 0 := by
    intro hq
    rw [hq] at h
    exact absurd h (by norm_num)
  have h1 : ¬q < 1 := not_lt.mpr h
  unfold getValidatedQuantity
  simp [truthy, h0, h1]

lemma expirationRegexTest_empty : expirationRegexTest "" = false := by decide

lemma getValidatedExpiration_ok {e : String} (h : expirationRegexTest e = true) :
    getValidatedExpiration (.str e) = ⟨some e, none⟩ := by
  have hne : e ≠ "" := by
    intro he
    rw [he, expirationRegexTest_empty] at h
    cases h
  unfold getValidatedExpiration
  simp [truthy, hne, h]

lemma parseIntJS_empty : parseIntJS "" = none := by decide

lemma getValidatedId_ok {s : String} {i : Int} (h : parseIntJS s = some i) :
    getValidatedId s = ⟨some i, none⟩ := by
  have hne : s ≠ "" := by
    intro hs
    rw [hs, parseIntJS_empty] at h
    cases h
  unfold getValidatedId
  simp [hne, h]

lemma firstWins_empty : Res.empty.firstWins := rfl

lemma firstWins_write {r : Res} (h : r.firstWins) (w : Write) :
    (r.write w).firstWins := by
  unfold Res.firstWins at *
  unfold Res.write
  cases ha : r.attempts with
  | nil => rw [h, ha]; simp
  | cons a t => rw [h, ha]; simp

lemma firstWins_writeOpt {r : Res} (h : r.firstWins) (o : Option Write) :
    (r.writeOpt o).firstWins := by
  cases o with
  | none => exact h
  | some w => exact firstWins_write h w

lemma runList_firstWins (env : DbEnv) : (runList env).res.firstWins := by
  unfold runList
  split
  · exact firstWins_empty
  · exact firstWins_write firstWins_empty _
  · exact firstWins_write firstWins_empty _

lemma runCreate_firstWins (body : Payload) (env : DbEnv) :
    (runCreate body env).res.firstWins := by
  have h3 : (((Res.empty.writeOpt (getValidateName body.name).wrote).writeOpt
      (getValidatedQuantity body.quantity).wrote).writeOpt
      (getValidatedExpiration body.expiration).wrote).firstWins :=
    firstWins_writeOpt (firstWins_writeOpt (firstWins_writeOpt firstWins_empty _) _) _
  unfold runCreate
  dsimp only
  split
  · split
    · split
      · exact h3
      · exact firstWins_write h3 _
      · exact firstWins_write h3 _
    · exact h3
  · exact h3

lemma runDelete_firstWins (pid : String) (env : DbEnv) :
    (runDelete pid env).res.firstWins := by
  have h1 : (Res.empty.writeOpt (getValidatedId pid).wrote).firstWins :=
    firstWins_writeOpt firstWins_empty _
  unfold runDelete
  dsimp only
  split
  · split
    · split
      · exact h1
      · exact firstWins_write h1 _
      · split
        · exact firstWins_write h1 _
        · exact firstWins_write h1 _
    · exact h1
  · exact h1

lemma runUpdate_firstWins (body : Payload) (pid : String) (env : DbEnv) :
    (runUpdate body pid env).res.firstWins := by
  have h4 : ((((Res.empty.writeOpt (getValidateName body.name).wrote).writeOpt
      (getValidatedQuantity body.quantity).wrote).writeOpt
      (getValidatedExpiration body.expiration).wrote).writeOpt
      (getValidatedId pid).wrote).firstWins :=
    firstWins_writeOpt (firstWins_writeOpt (firstWins_writeOpt
      (firstWins_writeOpt firstWins_empty _) _) _) _
  unfold runUpdate
  dsimp only
  split
  · split
    · split
      · exact h4
      · exact firstWins_write h4 _
      · split
        · exact firstWins_write h4 _
        · exact firstWins_write h4 _
    · exact h4
  · exact h4

lemma runDelete_valid_id {s : String} {i : Int} (t : List Row) (nid : Int)
    (hs : parseIntJS s = some i) (hi : i ≠ 0) :
    runDelete s ⟨t, nid, none⟩
      = ⟨⟨[userErrorW (notFoundMsg i)], [userErrorW (notFoundMsg i)]⟩,
         ⟨t, nid, none⟩, 1, none⟩ := by
  unfold runDelete
  rw [getValidatedId_ok hs]
  dsimp only
  rw [if_pos hi]
  dsimp only [deleteItem, itemExistsQ, itemExistsCb, rowStrictEqOne]
  dsimp only [DeleteResult.presentProp, truthy]
  simp [userError, userErrorW, Res.write, Res.empty, Res.writeOpt]

lemma runUpdate_valid_notfound {n : String} {q : ℚ} {e : String} {s : String} {i : Int}
    (t : List Row) (nid : Int)
    (hn : n ≠ "") (hq : 1 ≤ q) (he : expirationRegexTest e = true)
    (hs : parseIntJS s = some i) (hi : i ≠ 0) :
    runUpdate ⟨.str n, .num q, .str e⟩ s ⟨t, nid, none⟩
      = ⟨⟨[userErrorW (notFoundMsg i)], [userErrorW (notFoundMsg i)]⟩,
         ⟨t, nid, none⟩, 1, none⟩ := by
  have hq0 : q ≠ 0 := by
    intro h0; rw [h0] at hq; exact absurd hq (by norm_num)
  have hene : e ≠ "" := by
    intro h0; rw [h0, expirationRegexTest_empty] at he; cases he
  unfold runUpdate
  rw [getValidateName_ok hn, getValidatedQuantity_ok hq, getValidatedExpiration_ok he,
    getValidatedId_ok hs]
  dsimp only
  rw [if_pos ⟨hn, hq0, hene, hi⟩]
  dsimp only [updateItem, itemExistsQ, itemExistsCb, rowStrictEqOne]
  dsimp only [UpdateResult.presentProp, truthy]
  simp [userError, userErrorW, Res.write, Res.empty, Res.writeOpt]

lemma runCreate_valid {n : String} {q : ℚ} {e : String} (t : List Row) (nid : Int)
    (hn : n ≠ "") (hq : 1 ≤ q) (he : expirationRegexTest e = true) :
    runCreate ⟨.str n, .num q, .str e⟩ ⟨t, nid, none⟩
      = ⟨⟨[.jsonW (.item ⟨nid, n, q, e⟩)], [.jsonW (.item ⟨nid, n, q, e⟩)]⟩,
         ⟨t ++ [⟨nid, n, q, pgDate e⟩], nid + 1, none⟩, 1, none⟩ := by
  have hq0 : q ≠ 0 := by
    intro h0; rw [h0] at hq; exact absurd hq (by norm_num)
  have hene : e ≠ "" := by
    intro h0; rw [h0, expirationRegexTest_empty] at he; cases he
  unfold runCreate
  rw [getValidateName_ok hn, getValidatedQuantity_ok hq, getValidatedExpiration_ok he]
  dsimp only
  rw [if_pos ⟨hn, hq0, hene⟩]
  dsimp only [insertItem, insertItemCb]
  simp [Res.write, Res.empty, Res.writeOpt]

lemma getValidatedQuantity_value_of_not_num {v : JSValue} (h : ∀ x : ℚ, v ≠ .num x) :
    (getValidatedQuantity v).value = none := by
  cases v with
  | num q => exact absurd rfl (h q)
  | undefined => decide
  | null => decide
  | nan => decide
  | bool b => cases b <;> decide
  | str s =>
      unfold getValidatedQuantity
      split
      · rfl
      · rfl

/-! ### Claim theorems -/

/-- Claim C1: the spec states that `itemExists` reports true iff a row
with the id is present.  In the code the callback receives
`result.rows[0] === 1`, a strict comparison of the count row object
against the number 1, so `itemExists` reports false for every table and
every id — also on the concrete table whose only row has id 1 and whose
count row is the string "1". -/
theorem itemExists_always_false :
    (∀ (t : List Row) (nid : Int) (p : JSValue),
       itemExistsQ p ⟨t, nid, none⟩ = .ok false) ∧
    countRowFor [⟨1, "Rice", 2, ⟨2025, 1, 1⟩⟩] (.num 1) = ⟨"1"⟩ ∧
    itemExistsQ (.num 1) ⟨[⟨1, "Rice", 2, ⟨2025, 1, 1⟩⟩], 2, none⟩ = .ok false :=
  ⟨fun _ _ _ => rfl, by decide, by decide⟩

/-- Claim C2: the spec states that POST on an existing id with a valid
payload overwrites the row and answers 200 with the updated item.
Evaluating the update handler at such a request — id 1, present in the
table (the count is 1) — shows it instead answers 400 "Item with id 1
not found." and leaves the table unchanged, because the existence check
never reports true. -/
theorem update_existing_id_rejected_not_found :
    runUpdate ⟨.str "Beans", .num 3, .str "2026-01-02"⟩ "1"
        ⟨[⟨1, "Rice", 2, ⟨2025, 1, 1⟩⟩], 2, none⟩
      = ⟨⟨[.endW 400 "Item with id 1 not found."],
          [.endW 400 "Item with id 1 not found."]⟩,
         ⟨[⟨1, "Rice", 2, ⟨2025, 1, 1⟩⟩], 2, none⟩, 1, none⟩ ∧
    ([⟨1, "Rice", 2, ⟨2025, 1, 1⟩⟩] : List Row).countP
        (fun r => idMatchesParam r.id (.num 1)) = 1 := by
  decide

/-- Claim C3: the spec states that DELETE on an existing id removes the
row and answers 200 with the deleted item.  Evaluating the delete
handler at such a request — id 1, present in the table — shows it
instead answers 400 "Item with id 1 not found." and leaves the table
unchanged: the existence check never reports true (and is in fact run
with an undefined id, because the handler passes the bare number where
an item object is expected). -/
theorem delete_existing_id_rejected_not_found :
    runDelete "1" ⟨[⟨1, "Rice", 2, ⟨2025, 1, 1⟩⟩], 2, none⟩
      = ⟨⟨[.endW 400 "Item with id 1 not found."],
          [.endW 400 "Item with id 1 not found."]⟩,
         ⟨[⟨1, "Rice", 2, ⟨2025, 1, 1⟩⟩], 2, none⟩, 1, none⟩ ∧
    ([⟨1, "Rice", 2, ⟨2025, 1, 1⟩⟩] : List Row).countP
        (fun r => idMatchesParam r.id (.num 1)) = 1 := by
  decide

/-- Claim C4, counterexample: on a nonexistent id (7, while the table
only holds id 1) both mutating handlers answer status 400 — produced by
`userError` — and not 404 as claimed. -/
theorem nonexistent_id_counterexample_status_400 :
    (runDelete "7" ⟨[⟨1, "Rice", 2, ⟨2025, 1, 1⟩⟩], 2, none⟩).res.wire
        = [.endW 400 "Item with id 7 not found."] ∧
    (runUpdate ⟨.str "Beans", .num 3, .str "2026-01-02"⟩ "7"
        ⟨[⟨1, "Rice", 2, ⟨2025, 1, 1⟩⟩], 2, none⟩).res.wire
        = [.endW 400 "Item with id 7 not found."] ∧
    (Write.endW 400 "Item with id 7 not found.").status = 400 ∧
    (400 : Nat) ≠ 404 := by
  decide

/-- Claim C4, amended: for every POST /:id or DELETE /:id request whose
payload passes validation and whose (nonzero) id matches no row, the
handler answers status 400 with the not-found message — not 404 — and
the table is left unchanged. -/
theorem nonexistent_id_responds_400_unchanged
    (s : String) (i : Int) (t : List Row) (nid : Int)
    (n : String) (q : ℚ) (e : String)
    (hs : parseIntJS s = some i) (hi : i ≠ 0)
    (_habsent : ∀ r ∈ t, r.id ≠ i)
    (hn : n ≠ "") (hq : 1 ≤ q) (he : expirationRegexTest e = true) :
    ((runDelete s ⟨t, nid, none⟩).res.wire = [.endW 400 (notFoundMsg i)] ∧
     (runDelete s ⟨t, nid, none⟩).db = ⟨t, nid, none⟩) ∧
    ((runUpdate ⟨.str n, .num q, .str e⟩ s ⟨t, nid, none⟩).res.wire
        = [.endW 400 (notFoundMsg i)] ∧
     (runUpdate ⟨.str n, .num q, .str e⟩ s ⟨t, nid, none⟩).db = ⟨t, nid, none⟩) := by
  rw [runDelete_valid_id t nid hs hi, runUpdate_valid_notfound t nid hn hq he hs hi]
  exact ⟨⟨rfl, rfl⟩, ⟨rfl, rfl⟩⟩

theorem nonexistent_id_responds_400_unchanged_witness :
    ((runDelete "7" ⟨[⟨1, "Rice", 2, ⟨2025, 1, 1⟩⟩], 2, none⟩).res.wire
        = [.endW 400 (notFoundMsg 7)] ∧
     (runDelete "7" ⟨[⟨1, "Rice", 2, ⟨2025, 1, 1⟩⟩], 2, none⟩).db
        = ⟨[⟨1, "Rice", 2, ⟨2025, 1, 1⟩⟩], 2, none⟩) ∧
    ((runUpdate ⟨.str "Beans", .num 3, .str "2026-01-02"⟩ "7"
        ⟨[⟨1, "Rice", 2, ⟨2025, 1, 1⟩⟩], 2, none⟩).res.wire
        = [.endW 400 (notFoundMsg 7)] ∧
     (runUpdate ⟨.str "Beans", .num 3, .str "2026-01-02"⟩ "7"
        ⟨[⟨1, "Rice", 2, ⟨2025, 1, 1⟩⟩], 2, none⟩).db
        = ⟨[⟨1, "Rice", 2, ⟨2025, 1, 1⟩⟩], 2, none⟩) :=
  nonexistent_id_responds_400_unchanged "7" 7 [⟨1, "Rice", 2, ⟨2025, 1, 1⟩⟩] 2
    "Beans" 3 "2026-01-02" (by decide) (by decide) (by decide) (by decide)
    (by norm_num) (by decide)

/-- Claim C5: the spec states that a database error is returned as an
explicit value to the handler, which answers 500 with a generic message.
In the code both `getItems` and `insertItem` dereference `result.rows`
before looking at `err`; on a query error `result` is undefined, so the
callback throws a TypeError instead of passing the error on: the
request crashes with no response written at all — no 500 ever
reaches the client. -/
theorem db_error_crashes_callback_no_500 :
    ∀ (t : List Row) (nid : Int) (e : String),
      runList ⟨t, nid, some e⟩ = ⟨Res.empty, ⟨t, nid, some e⟩, 1, some tyErrMsg⟩ ∧
      runCreate ⟨.str "Rice", .num 2, .str "2025-01-01"⟩ ⟨t, nid, some e⟩
        = ⟨Res.empty, ⟨t, nid, some e⟩, 1, some tyErrMsg⟩ ∧
      getItemsCb (.error e) = .thrown tyErrMsg ∧
      insertItemCb ⟨"Rice", 2, "2025-01-01"⟩ (.error e) = .thrown tyErrMsg :=
  fun _ _ _ => ⟨rfl, rfl, rfl, rfl⟩

/-- Claim C6: for every request, at most one response reaches the
client: in every handler what reaches the wire is exactly the first
attempted write, and on a create request with several invalid fields —
here all three — each failing validator attempts a write but exactly the
first error (status 400) is delivered. -/
theorem at_most_one_response_delivered :
    (∀ env : DbEnv, (runList env).res.wire = (runList env).res.attempts.take 1) ∧
    (∀ (body : Payload) (env : DbEnv),
       (runCreate body env).res.wire = (runCreate body env).res.attempts.take 1) ∧
    (∀ (pid : String) (env : DbEnv),
       (runDelete pid env).res.wire = (runDelete pid env).res.attempts.take 1) ∧
    (∀ (body : Payload) (pid : String) (env : DbEnv),
       (runUpdate body pid env).res.wire = (runUpdate body pid env).res.attempts.take 1) ∧
    (∀ env : DbEnv,
       (runCreate ⟨.undefined, .num 0, .str "x"⟩ env).res
         = ⟨[userErrorW "name was undefined."],
            [userErrorW "name was undefined.", userErrorW "quantity was undefined.",
             userErrorW
               "expiration date was not a string or it was not of the format YYYY-MM-DD."]⟩) :=
  ⟨runList_firstWins, runCreate_firstWins, runDelete_firstWins, runUpdate_firstWins,
   fun _ => rfl⟩

/-- Claim C7: for every payload with a non-empty string name, a numeric
quantity of at least 1 and a string expiration passing the date-format
test, POST / answers 200 with the item carrying the database-assigned id
and echoing the submitted name, quantity and expiration. -/
theorem create_valid_payload_returns_item
    (n : String) (q : ℚ) (e : String) (t : List Row) (nid : Int)
    (hn : n ≠ "") (hq : 1 ≤ q) (he : expirationRegexTest e = true) :
    (runCreate ⟨.str n, .num q, .str e⟩ ⟨t, nid, none⟩).res.wire
        = [.jsonW (.item ⟨nid, n, q, e⟩)] ∧
    Write.status (.jsonW (.item ⟨nid, n, q, e⟩)) = 200 := by
  rw [runCreate_valid t nid hn hq he]
  exact ⟨rfl, rfl⟩

theorem create_valid_payload_returns_item_witness :
    (runCreate ⟨.str "Rice", .num 2, .str "2025-01-01"⟩ ⟨[], 1, none⟩).res.wire
        = [.jsonW (.item ⟨1, "Rice", 2, "2025-01-01"⟩)] ∧
    Write.status (.jsonW (.item ⟨1, "Rice", 2, "2025-01-01"⟩)) = 200 :=
  create_valid_payload_returns_item "Rice" 2 "2025-01-01" [] 1
    (by decide) (by norm_num) (by decide)

/-- Claim C8, counterexample: on the quantity 1.5 (the rational 3/2) the
validator returns the value unchanged and writes no error, although 3/2
is not an integer (its reduced denominator is 2), refuting "returns an
integer or signals invalid". -/
theorem quantity_validator_accepts_non_integer :
    (getValidatedQuantity (.num threeHalves)).value = some threeHalves ∧
    (getValidatedQuantity (.num threeHalves)).wrote = none ∧
    threeHalves.den = 2 ∧
    threeHalves = 3 / 2 :=
  ⟨by decide, by decide, by decide, threeHalves_eq⟩

/-- Claim C8, amended: the quantity validator returns a number (not
necessarily an integer) or signals invalid: a returned value x is the
payload's numeric quantity with x at least 1, and it signals invalid
exactly when the quantity is falsy (absent, 0 or NaN), not of number
type, or a number less than 1. -/
theorem quantity_validator_characterized :
    (∀ (v : JSValue) (x : ℚ),
       (getValidatedQuantity v).value = some x → v = .num x ∧ 1 ≤ x) ∧
    (∀ v : JSValue, (getValidatedQuantity v).value = none ↔
       (truthy v = false ∨ (∀ x : ℚ, v ≠ .num x) ∨ ∃ x : ℚ, v = .num x ∧ x < 1)) := by
  constructor
  · intro v x h
    cases v with
    | num q =>
        by_cases h0 : q = 0
        · subst h0
          simp [getValidatedQuantity, truthy] at h
        · by_cases h1 : q < 1
          · simp [getValidatedQuantity, truthy, h0, h1] at h
          · simp [getValidatedQuantity, truthy, h0, h1] at h
            subst h
            exact ⟨rfl, not_lt.mp h1⟩
    | undefined => simp [getValidatedQuantity, truthy] at h
    | null => simp [getValidatedQuantity, truthy] at h
    | nan => simp [getValidatedQuantity, truthy] at h
    | bool b =>
        have hb := getValidatedQuantity_value_of_not_num
          (v := .bool b) (fun x hx => by cases hx)
        rw [hb] at h
        cases h
    | str s =>
        have hs := getValidatedQuantity_value_of_not_num
          (v := .str s) (fun x hx => by cases hx)
        rw [hs] at h
        cases h
  · intro v
    cases v with
    | num q =>
        by_cases h0 : q = 0
        · subst h0
          constructor
          · intro _
            left
            decide
          · intro _
            simp [getValidatedQuantity, truthy]
        · by_cases h1 : q < 1
          · constructor
            · intro _
              right; right
              exact ⟨q, rfl, h1⟩
            · intro _
              simp [getValidatedQuantity, truthy, h0, h1]
          · constructor
            · intro h
              simp [getValidatedQuantity, truthy, h0, h1] at h
            · intro h
              rcases h with h | h | ⟨x, hx, hlt⟩
              · simp [truthy, h0] at h
              · exact absurd rfl (h q)
              · cases hx
                exact absurd hlt h1
    | undefined => simp [getValidatedQuantity, truthy]
    | null => simp [getValidatedQuantity, truthy]
    | nan => simp [getValidatedQuantity, truthy]
    | bool b =>
        rw [getValidatedQuantity_value_of_not_num (fun x hx => by cases hx)]
        simp
    | str s =>
        rw [getValidatedQuantity_value_of_not_num (fun x hx => by cases hx)]
        simp

theorem quantity_validator_characterized_witness :
    JSValue.num (2 : ℚ) = .num 2 ∧ (1 : ℚ) ≤ 2 :=
  quantity_validator_characterized.1 (.num 2) 2 (by decide)

/-- Claim C9, counterexample: a row whose expiration date is
2025-01-01 is listed with expiration "1/1/2025", the locale-formatted
string, which fails the program's own YYYY-MM-DD format test — the
output format is not the input format. -/
theorem list_expiration_not_input_format :
    (runList ⟨[⟨1, "Rice", 2, ⟨2025, 1, 1⟩⟩], 2, none⟩).res.wire
        = [.jsonW (.items [⟨1, "Rice", 2, "1/1/2025"⟩])] ∧
    expirationRegexTest "2025-01-01" = true ∧
    expirationRegexTest "1/1/2025" = false ∧
    "1/1/2025" ≠ "2025-01-01" := by
  decide

/-- Claim C9, amended: the list operation returns every row, in order,
with each row's expiration serialized by `toLocaleDateString`
(month/day/year under the default locale) rather than the YYYY-MM-DD
input format; GET / answers 200, and on an empty table the body is the
empty array. -/
theorem list_returns_rows_locale_dates :
    (∀ (t : List Row) (nid : Int),
       (runList ⟨t, nid, none⟩).res.wire
           = [.jsonW (.items (t.map dateObjectToString))] ∧
       (runList ⟨t, nid, none⟩).res.wire.map Write.status = [200]) ∧
    (∀ nid : Int, (runList ⟨[], nid, none⟩).res.wire = [.jsonW (.items [])]) :=
  ⟨fun _ _ => ⟨rfl, rfl⟩, fun _ => rfl⟩

/-- Claim C10: an id path parameter of "0" passes the id validator (it
returns 0 and writes nothing), but the handlers' falsy guard then stops
the request before any data-access call, so the delete and update
handlers write no response of any kind: the whole run performs no
attempt, no data-access call, and leaves the database untouched. -/
theorem id_zero_no_response_no_dal :
    getValidatedId "0" = ⟨some 0, none⟩ ∧
    (∀ env : DbEnv, runDelete "0" env = ⟨Res.empty, env, 0, none⟩) ∧
    (∀ (n : String) (q : ℚ) (e : String) (env : DbEnv),
       n ≠ "" → 1 ≤ q → expirationRegexTest e = true →
       runUpdate ⟨.str n, .num q, .str e⟩ "0" env = ⟨Res.empty, env, 0, none⟩) := by
  refine ⟨by decide, fun _ => rfl, ?_⟩
  intro n q e env hn hq he
  unfold runUpdate
  rw [getValidateName_ok hn, getValidatedQuantity_ok hq, getValidatedExpiration_ok he]
  rw [show getValidatedId "0" = ⟨some 0, none⟩ from by decide]
  dsimp only
  rw [if_neg (by simp)]
  rfl

theorem id_zero_no_response_no_dal_witness :
    runUpdate ⟨.str "Rice", .num 2, .str "2025-01-01"⟩ "0" ⟨[], 1, none⟩
      = ⟨Res.empty, ⟨[], 1, none⟩, 0, none⟩ :=
  id_zero_no_response_no_dal.2.2 "Rice" 2 "2025-01-01" ⟨[], 1, none⟩
    (by decide) (by norm_num) (by decide)

end Pantry
